import Mathlib

/-!
Shallow embedding of the guest-registration service
(app/api/submit/route.ts, app/api/pdf/[id]/route.ts, app/success/[id]/page.tsx,
lib/kv.ts).

Conventions of the embedding:
* JS millisecond timestamps are `Int`; `Date.now()` and the validation instant
  are a single `now` parameter (the route creates several `new Date()` objects
  within microseconds of each other).
* `new Date(string).getTime()` (host date parsing) is an explicit parameter
  `pd : String → Option Int`; `none` models an invalid date (`NaN`), and every
  comparison with `NaN` is `false`, exactly as in JS.
* Strings are ASCII in all inputs of interest; `String.length` then agrees with
  the JS UTF-16 length and `String.toLower` with `toLowerCase`.
* The two key families used with the store, `"guest:" ++ id` and
  `"rate_limit:" ++ ip`, have distinct prefixes, so the key space is embedded
  as a structured sum `Key`; string-prefixing is injective on each family and
  the families are disjoint.
-/

namespace GuestReg

/-- A validation failure: (field path joined with ".", message) — the shape of
one entry of `details` built from `ZodError.errors` in the POST handler. -/
abbrev Issue := String × String

/-- The validated payload (`RegistrationData = z.infer<typeof RegistrationSchema>`).
`email` is stored lower-cased by the schema's `.toLowerCase()` transform; the
two consent fields are `z.literal(true)` so they are `true` in every value the
schema produces. -/
structure RegistrationData where
  fullName : String
  idOrPassport : String
  nationality : String
  residenceStatus : String
  homeAddress : String
  phone : String
  email : String
  checkIn : String
  checkOut : String
  guests : Int
  selfie : String
  idImage : String
  signature : String
  popiaConsent : Bool
  nonRefundAck : Bool
deriving DecidableEq

/-- Request metadata attached by the POST handler.  The ISO-8601 `timestamp`
string is embedded as the instant it prints. -/
structure ReqMetadata where
  userAgent : String
  ip : String
  timestamp : Int
deriving DecidableEq

/-- A stored submission (`SubmissionRecord` in route.ts). -/
structure SubmissionRecord where
  id : String
  createdAt : Int
  data : RegistrationData
  metadata : ReqMetadata
deriving DecidableEq

/-- Store keys.  The code uses string keys `guest:${id}` and
`rate_limit:${identifier}`; since the prefixes differ and `++` is injective on
the suffix, the key space is embedded as this sum. -/
inductive Key where
  | guest (id : String)
  | rateLimit (ip : String)
deriving DecidableEq

/-- Values held in the key-value store: submissions under `guest:` keys and
rate-limit counters (`{ count, resetTime }`) under `rate_limit:` keys. -/
inductive KVVal where
  | sub (s : SubmissionRecord)
  | rl (count : Nat) (resetTime : Int)
deriving DecidableEq

/-- Lookup in the primary store: first binding wins (a fresh `kv.set` shadows
older bindings).  Each binding carries the TTL (`ex` seconds) the `kv.set`
call attached, `none` when no TTL was given. -/
def kvLookup (k : Key) : List (Key × KVVal × Option Nat) → Option (KVVal × Option Nat)
  | [] => none
  | (k', v, t) :: rest => if k = k' then some (v, t) else kvLookup k rest

/-- Lookup in the in-memory fallback `Map`. -/
def memLookup (k : Key) : List (Key × KVVal) → Option KVVal
  | [] => none
  | (k', v) :: rest => if k = k' then some v else memLookup k rest

/-- The storage world of lib/kv.ts: the remote `@vercel/kv` client (whose
operations may throw, modelled by `primaryFails`) and the module-level
in-memory fallback `Map`. -/
structure KV where
  primary : List (Key × KVVal × Option Nat)
  memory : List (Key × KVVal)
  primaryFails : Bool
deriving DecidableEq

/-- lib/kv.ts `kvSet(key, value)`: try `kv.set(key, value)`; on failure fall
back to `memory.set(key, value)`.  Two facts of the source are visible here:
the function has no TTL parameter (so the primary binding gets TTL `none` —
callers' third `{ ex: … }` argument has nothing to bind to and is dropped),
and every error is absorbed (the function always returns, never throws). -/
def kvSet (key : Key) (value : KVVal) (kv : KV) : KV :=
  if kv.primaryFails then { kv with memory := (key, value) :: kv.memory }
  else { kv with primary := (key, value, none) :: kv.primary }

/-- lib/kv.ts `kvGet(key)`: try `kv.get(key)` and return it when truthy;
on failure or a missing value fall through to the memory map. -/
def kvGet (key : Key) (kv : KV) : Option KVVal :=
  match (if kv.primaryFails then none else (kvLookup key kv.primary).map Prod.fst) with
  | some v => some v
  | none => memLookup key kv.memory

/-! ## Character classes of the schema's regular expressions -/

/-- JS `\s` restricted to ASCII: space, tab, LF, VT, FF, CR. -/
def isSpaceJS (c : Char) : Bool :=
  c = ' ' || c = '\t' || c = '\n' || c = '\r' || c = Char.ofNat 11 || c = Char.ofNat 12

/-- `[a-zA-Z0-9]`. -/
def isAlnum (c : Char) : Bool := c.isAlpha || c.isDigit

/-- Character class of `/^[a-zA-Z\s\-'\.]+$/` (fullName). -/
def nameChar (c : Char) : Bool :=
  c.isAlpha || isSpaceJS c || c = '-' || c = Char.ofNat 39 || c = '.'

/-- Character class of `/^[a-zA-Z0-9\-]+$/` (idOrPassport). -/
def idChar (c : Char) : Bool := isAlnum c || c = '-'

/-- Character class of `/^[a-zA-Z\s]+$/` (nationality). -/
def natChar (c : Char) : Bool := c.isAlpha || isSpaceJS c

/-- Character class of `[\d\s\-\(\)]` (phone, after the optional leading `+`). -/
def phoneChar (c : Char) : Bool :=
  c.isDigit || isSpaceJS c || c = '-' || c = '(' || c = ')'

/-- One-or-more match `/^[C]+$/`: non-empty and every char in the class. -/
def plusMatch (p : Char → Bool) (s : String) : Bool :=
  !s.isEmpty && s.data.all p

/-- List-prefix test (pattern first). -/
def startsWithL : List Char → List Char → Bool
  | [], _ => true
  | _ :: _, [] => false
  | a :: as, b :: bs => a = b && startsWithL as bs

/-- JS `String.prototype.startsWith` (pattern first). -/
def startsWithStr (pre s : String) : Bool :=
  startsWithL pre.data s.data

/-- JS `String.prototype.split` with a one-character separator, on the
character list; the result is never empty. -/
def splitOnChar (sep : Char) : List Char → List (List Char)
  | [] => [[]]
  | c :: rest =>
    match splitOnChar sep rest with
    | [] => [[]]
    | g :: gs => if c = sep then [] :: g :: gs else (c :: g) :: gs

/-- JS `s.split(sep)` for a one-character separator. -/
def splitStr (s : String) (sep : Char) : List String :=
  (splitOnChar sep s.data).map String.mk

/-- ASCII lower-casing of one character (JS `toLowerCase` on ASCII input). -/
def lowerChar (c : Char) : Char :=
  if 'A' ≤ c && c ≤ 'Z' then Char.ofNat (c.toNat + 32) else c

/-- JS `String.prototype.toLowerCase` (ASCII). -/
def toLowerStr (s : String) : String :=
  ⟨s.data.map lowerChar⟩

/-- `/^[\+]?[\d\s\-\(\)]+$/`. -/
def phoneRegexOk (s : String) : Bool :=
  plusMatch phoneChar (if startsWithStr "+" s then s.drop 1 else s)

/-! ## The email check (`z.string().email()`, zod's email pattern
`/^(?!\.)(?!.*\.\.)([A-Z0-9_'+\-\.]*)[A-Z0-9_+-]@([A-Z0-9][A-Z0-9\-]*\.)+[A-Z]{2,}$/i`). -/

/-- Local-part character class `[A-Z0-9_'+\-\.]` (case-insensitive). -/
def emailLocalChar (c : Char) : Bool :=
  isAlnum c || c = '_' || c = Char.ofNat 39 || c = '+' || c = '-' || c = '.'

/-- Two consecutive dots somewhere (the `(?!.*\.\.)` lookahead, negated). -/
def hasDoubleDot : List Char → Bool
  | '.' :: '.' :: _ => true
  | _ :: rest => hasDoubleDot rest
  | [] => false

/-- The final local-part character must be `[A-Z0-9_+-]` (no dot, no quote). -/
def emailLocalEndOk : Option Char → Bool
  | some c => isAlnum c || c = '_' || c = '+' || c = '-'
  | none => false

/-- Local part of the email pattern. -/
def emailLocalOk (l : String) : Bool :=
  !l.isEmpty && l.data.all emailLocalChar && emailLocalEndOk l.data.getLast? &&
    !(startsWithStr "." l) && !hasDoubleDot l.data

/-- A non-final domain label `[A-Z0-9][A-Z0-9\-]*`. -/
def labelOk (l : String) : Bool :=
  match l.data with
  | [] => false
  | c :: cs => isAlnum c && cs.all (fun x => isAlnum x || x = '-')

/-- The final label `[A-Z]{2,}`. -/
def tldOk (t : String) : Bool :=
  t.length ≥ 2 && t.data.all Char.isAlpha

/-- Domain part `([A-Z0-9][A-Z0-9\-]*\.)+[A-Z]{2,}`: splitting on the dots is
faithful because neither label class contains a dot. -/
def emailDomainOk (d : String) : Bool :=
  match (splitStr d '.').reverse with
  | t :: rest => !rest.isEmpty && tldOk t && rest.all labelOk
  | [] => false

/-- `z.string().email()`: exactly one `@` (neither side's class contains one),
valid local part and valid domain. -/
def emailOk (s : String) : Bool :=
  match splitStr s '@' with
  | [l, d] => emailLocalOk l && emailDomainOk d
  | _ => false

/-! ## Per-field checks (each returns the list of messages of the violated
checks of that field, in the order zod adds them; zod's string/number checks
are non-fatal, so all of a field's failed checks report together) -/

/-- `.min(lo, loMsg).max(hi, hiMsg)` on a string. -/
def lenIssues (s : String) (lo hi : Nat) (loMsg hiMsg : String) : List String :=
  (if s.length < lo then [loMsg] else []) ++ (if s.length > hi then [hiMsg] else [])

/-- `.regex(re, msg)` / `.refine(ok, msg)`: one message when the check fails. -/
def checkIssue (ok : Bool) (msg : String) : List String :=
  if ok then [] else [msg]

def fullNameIssues (s : String) : List String :=
  lenIssues s 2 100 "Full name must be at least 2 characters"
    "Full name must be less than 100 characters" ++
  checkIssue (plusMatch nameChar s) "Full name contains invalid characters"

def idOrPassportIssues (s : String) : List String :=
  lenIssues s 4 20 "ID/Passport must be at least 4 characters"
    "ID/Passport must be less than 20 characters" ++
  checkIssue (plusMatch idChar s) "ID/Passport contains invalid characters"

def nationalityIssues (s : String) : List String :=
  lenIssues s 2 50 "Nationality must be at least 2 characters"
    "Nationality must be less than 50 characters" ++
  checkIssue (plusMatch natChar s) "Nationality contains invalid characters"

def residenceStatusIssues (s : String) : List String :=
  lenIssues s 2 100 "Residence status must be at least 2 characters"
    "Residence status must be less than 100 characters"

def homeAddressIssues (s : String) : List String :=
  lenIssues s 5 300 "Home address must be at least 5 characters"
    "Home address must be less than 300 characters"

def phoneIssues (s : String) : List String :=
  lenIssues s 6 20 "Phone number must be at least 6 characters"
    "Phone number must be less than 20 characters" ++
  checkIssue (phoneRegexOk s) "Invalid phone number format"

def emailIssues (s : String) : List String :=
  checkIssue (emailOk s) "Invalid email address" ++
  (if s.length > 100 then ["Email must be less than 100 characters"] else [])

/-- `new Date(s) > new Date(t)` with `t` given in ms: false when `s` does not
parse (`NaN` comparisons are false). -/
def dateAfter (pd : String → Option Int) (s : String) (t : Int) : Bool :=
  match pd s with
  | some v => t < v
  | none => false

def checkInIssues (pd : String → Option Int) (now : Int) (s : String) : List String :=
  (if s.length < 4 then ["Check-in date is required"] else []) ++
  checkIssue (dateAfter pd s now) "Check-in date must be in the future"

def checkOutIssues (s : String) : List String :=
  if s.length < 4 then ["Check-out date is required"] else []

def guestsIssues (g : Int) : List String :=
  (if g < 1 then ["At least 1 guest is required"] else []) ++
  (if g > 20 then ["Maximum 20 guests allowed"] else [])

/-- `data.split(',')[1]` of a data URL: the segment between the first and
second comma, `""` when there is no comma (JS `undefined`, falsy like `""`). -/
def dataUrlPayload (s : String) : String :=
  (splitStr s ',').getD 1 ""

/-- The size ceilings of the three upload fields, in bytes. -/
def maxImageBytes : Nat := 5 * 1024 * 1024
def maxSigBytes : Nat := 1 * 1024 * 1024

/-- The `.refine` body shared by selfie / idImage / signature:
`data.startsWith('data:image/')`, non-empty `data.split(',')[1]`, and the size
estimate `(base64.length * 3) / 4 <= maxSize` — the exact rational comparison,
written multiplied out (`len * 3 ≤ maxSize * 4`). -/
def imageRefineOk (maxSize : Nat) (s : String) : Bool :=
  startsWithStr "data:image/" s && !(dataUrlPayload s).isEmpty &&
    (dataUrlPayload s).length * 3 ≤ maxSize * 4

/-- `z.string().min(10, reqMsg).refine(…, errMsg)` of one upload field. -/
def imageFieldIssues (reqMsg errMsg : String) (maxSize : Nat) (s : String) : List String :=
  (if s.length < 10 then [reqMsg] else []) ++
  checkIssue (imageRefineOk maxSize s) errMsg

def selfieChecks (s : String) : List String :=
  imageFieldIssues "Selfie is required"
    "Invalid selfie image or file too large (max 5MB)" maxImageBytes s

def idImageChecks (s : String) : List String :=
  imageFieldIssues "ID/Passport image is required"
    "Invalid ID/Passport image or file too large (max 5MB)" maxImageBytes s

def signatureChecks (s : String) : List String :=
  imageFieldIssues "Digital signature is required"
    "Invalid signature or file too large (max 1MB)" maxSigBytes s

/-! ## The whole schema -/

/-- The candidate payload: the JSON object after shape-level reading, each
field `none` when absent (zod reports `Required` on it and aborts that field). -/
structure Payload where
  fullName : Option String
  idOrPassport : Option String
  nationality : Option String
  residenceStatus : Option String
  homeAddress : Option String
  phone : Option String
  email : Option String
  checkIn : Option String
  checkOut : Option String
  guests : Option Int
  selfie : Option String
  idImage : Option String
  signature : Option String
  popiaConsent : Option Bool
  nonRefundAck : Option Bool
deriving DecidableEq

/-- One object field: a missing value yields zod's `Required` issue (fatal);
a present value yields that field's (non-fatal) check issues. -/
def optField {α : Type} (f : String) (o : Option α) (checks : α → List String) : List Issue :=
  match o with
  | none => [(f, "Required")]
  | some v => (checks v).map (fun m => (f, m))

/-- `z.literal(true)` with a custom error map: anything but `true` (including
absence) yields the custom message, and the failure is fatal. -/
def consentField (f msg : String) (o : Option Bool) : List Issue :=
  match o with
  | some true => []
  | _ => [(f, msg)]

/-- All field-level issues, in the declaration order of the schema's shape. -/
def fieldIssues (pd : String → Option Int) (now : Int) (p : Payload) : List Issue :=
  optField "fullName" p.fullName fullNameIssues ++
  optField "idOrPassport" p.idOrPassport idOrPassportIssues ++
  optField "nationality" p.nationality nationalityIssues ++
  optField "residenceStatus" p.residenceStatus residenceStatusIssues ++
  optField "homeAddress" p.homeAddress homeAddressIssues ++
  optField "phone" p.phone phoneIssues ++
  optField "email" p.email emailIssues ++
  optField "checkIn" p.checkIn (checkInIssues pd now) ++
  optField "checkOut" p.checkOut checkOutIssues ++
  optField "guests" p.guests guestsIssues ++
  optField "selfie" p.selfie selfieChecks ++
  optField "idImage" p.idImage idImageChecks ++
  optField "signature" p.signature signatureChecks ++
  consentField "popiaConsent" "POPIA consent is required" p.popiaConsent ++
  consentField "nonRefundAck" "Non-refund policy acknowledgment is required" p.nonRefundAck

/-- Whether some field failed fatally (zod `INVALID`): a missing value, or a
consent that is not literally `true`.  When the object parse is invalid the
`.refine` effects wrapping it do not run, so the cross-field checks are
skipped exactly in this case. -/
def aborted (p : Payload) : Bool :=
  p.fullName.isNone || p.idOrPassport.isNone || p.nationality.isNone ||
  p.residenceStatus.isNone || p.homeAddress.isNone || p.phone.isNone ||
  p.email.isNone || p.checkIn.isNone || p.checkOut.isNone || p.guests.isNone ||
  p.selfie.isNone || p.idImage.isNone || p.signature.isNone ||
  !(p.popiaConsent == some true) || !(p.nonRefundAck == some true)

/-- First cross-field refinement: `new Date(checkOut) > new Date(checkIn)`. -/
def checkOutAfter (pd : String → Option Int) (ci co : String) : Bool :=
  match pd ci, pd co with
  | some a, some b => a < b
  | _, _ => false

/-- `ceil(a / b)` on naturals (`Math.ceil` of an exact division). -/
def ceilDiv (a b : Nat) : Nat := (a + b - 1) / b

/-- Second cross-field refinement:
`Math.ceil(Math.abs(checkOut - checkIn) / 86400000) <= 365`; false when either
date is `NaN` (then `diffDays` is `NaN` and `NaN <= 365` is false). -/
def durationOk (pd : String → Option Int) (ci co : String) : Bool :=
  match pd ci, pd co with
  | some a, some b => ceilDiv (b - a).natAbs 86400000 ≤ 365
  | _, _ => false

/-- The two cross-field refinements, both attached to the `checkOut` path,
in the order they were chained onto the schema. -/
def crossIssues (pd : String → Option Int) (ci co : String) : List Issue :=
  (if checkOutAfter pd ci co then []
   else [("checkOut", "Check-out date must be after check-in date")]) ++
  (if durationOk pd ci co then []
   else [("checkOut", "Stay duration cannot exceed 365 days")])

/-- Every issue `RegistrationSchema.parse` collects on `p`: all field-level
issues, then — only when no field failed fatally — the cross-field issues. -/
def allIssues (pd : String → Option Int) (now : Int) (p : Payload) : List Issue :=
  fieldIssues pd now p ++
  (if aborted p then []
   else crossIssues pd (p.checkIn.getD "") (p.checkOut.getD ""))

/-- The value the schema produces when there is no issue (in that case every
field is present, so the `getD` defaults are never used); `email` is
lower-cased by the `.toLowerCase()` transform. -/
def buildData (p : Payload) : RegistrationData where
  fullName := p.fullName.getD ""
  idOrPassport := p.idOrPassport.getD ""
  nationality := p.nationality.getD ""
  residenceStatus := p.residenceStatus.getD ""
  homeAddress := p.homeAddress.getD ""
  phone := p.phone.getD ""
  email := toLowerStr (p.email.getD "")
  checkIn := p.checkIn.getD ""
  checkOut := p.checkOut.getD ""
  guests := p.guests.getD 0
  selfie := p.selfie.getD ""
  idImage := p.idImage.getD ""
  signature := p.signature.getD ""
  popiaConsent := true
  nonRefundAck := true

/-- `RegistrationSchema.parse(payload)`: the typed record when no issue was
collected, otherwise the full issue list (`ZodError.errors`). -/
def validate (pd : String → Option Int) (now : Int) (p : Payload) :
    Except (List Issue) RegistrationData :=
  match allIssues pd now p with
  | [] => .ok (buildData p)
  | is => .error is

/-! ## Spam heuristic (`detectSpamPatterns`) -/

/-- The text scanned by the heuristic:
`` `${fullName} ${email} ${homeAddress}`.toLowerCase() ``. -/
def spamText (d : RegistrationData) : String :=
  toLowerStr (d.fullName ++ " " ++ d.email ++ " " ++ d.homeAddress)

/-- JS line terminators (LF, CR, U+2028, U+2029): `.` without the `s` flag
does not match them, so `(.)` can never capture one. -/
def isLineTerm (c : Char) : Bool :=
  c = '\n' || c = '\r' || c = Char.ofNat 0x2028 || c = Char.ofNat 0x2029

/-- Scanning state for `/(.)\1{10,}/`: `c` is the current run's character and
`n` its length so far; fires as soon as a run reaches 11, provided the run's
character is matchable by `.` (not a line terminator — the captured character
cannot be one, and the `\1` repeats equal the capture). -/
def longRunAux (c : Char) (n : Nat) : List Char → Bool
  | [] => false
  | x :: rest =>
    if x = c then
      ((!isLineTerm c && decide (n + 1 ≥ 11)) || longRunAux c (n + 1) rest)
    else longRunAux x 1 rest

/-- `/(.)\1{10,}/`: some character other than a line terminator repeated at
least 11 times in a row. -/
def hasLongRun (s : String) : Bool :=
  match s.data with
  | [] => false
  | c :: rest => longRunAux c 1 rest

/-- After `\d*`, the next character must be `@`. -/
def digitsThenAt : List Char → Bool
  | [] => false
  | c :: rest => if c.isDigit then digitsThenAt rest else c = '@'

/-- The alternatives of `/(test|fake|spam|dummy)\d*@/i` (the scanned text is
already lower-cased, so only the lower-case forms can occur). -/
def spamWords : List (List Char) :=
  ["test".data, "fake".data, "spam".data, "dummy".data]

/-- A match of `(test|fake|spam|dummy)\d*@` starting at this position. -/
def testEmailAt (l : List Char) : Bool :=
  spamWords.any (fun w => startsWithL w l && digitsThenAt (l.drop w.length))

/-- Does `p` hold at some suffix position (unanchored regex search)? -/
def anySuffix (p : List Char → Bool) : List Char → Bool
  | [] => p []
  | c :: rest => p (c :: rest) || anySuffix p rest

/-- `/(test|fake|spam|dummy)\d*@/i`. -/
def hasTestEmail (s : String) : Bool :=
  anySuffix testEmailAt s.data

/-- `/^\s*$/`: the whole text is whitespace. -/
def isBlankText (s : String) : Bool :=
  s.data.all isSpaceJS

/-- JS word character `[A-Za-z0-9_]` (for `\b`). -/
def isWordChar (c : Char) : Bool := isAlnum c || c = '_'

/-- The keyword alternatives of the fourth pattern (lower-case; the scanned
text is lower-cased and the regex is case-insensitive). -/
def promoWords : List (List Char) :=
  ["viagra".data, "casino".data, "lottery".data, "winner".data,
   "congratulations".data, "urgent".data, "click here".data]

/-- `l` starts with `w` and the position after the match is a word boundary
(end of text or a non-word character).  Every keyword ends in a word
character, so `\b` there is exactly this condition. -/
def matchThenBoundary : List Char → List Char → Bool
  | [], [] => true
  | [], c :: _ => !isWordChar c
  | _ :: _, [] => false
  | a :: as, b :: bs => a = b && matchThenBoundary as bs

/-- Search for `\b(viagra|casino|lottery|winner|congratulations|urgent|click here)\b`:
`prevIsWord` says whether the previous character was a word character (so the
left `\b` holds exactly when it is false; every keyword starts with a word
character). -/
def keywordSearch (prevIsWord : Bool) : List Char → Bool
  | [] => false
  | c :: rest =>
    (!prevIsWord && promoWords.any (fun w => matchThenBoundary w (c :: rest))) ||
      keywordSearch (isWordChar c) rest

/-- The fourth spam pattern. -/
def hasPromoKeyword (s : String) : Bool :=
  keywordSearch false s.data

/-- `detectSpamPatterns`: `spamPatterns.some(pattern => pattern.test(text))`. -/
def detectSpamPatterns (d : RegistrationData) : Bool :=
  hasLongRun (spamText d) || hasTestEmail (spamText d) ||
    isBlankText (spamText d) || hasPromoKeyword (spamText d)

/-! ## Rate limiter (`checkRateLimit`) -/

/-- `windowMs = 15 * 60 * 1000`. -/
def windowMs : Int := 15 * 60 * 1000

/-- `maxRequests = 3`. -/
def maxRequests : Nat := 3

/-- `checkRateLimit(identifier)` at instant `now`, returning the allow flag
and the updated store.  The `{ ex: … }` third arguments of the route's
`kvSet` calls are dropped because `kvSet(key, value)` has no TTL parameter.
A `guest` value under a rate-limit key cannot occur (the key families are
disjoint); that arm behaves like a missing record.  The `catch`-and-allow
branch of the source is unreachable here because `kvGet`/`kvSet` absorb all
store errors and never throw. -/
def checkRateLimit (ip : String) (now : Int) (kv : KV) : Bool × KV :=
  match kvGet (.rateLimit ip) kv with
  | some (.rl count reset) =>
    if reset < now then
      (true, kvSet (.rateLimit ip) (.rl 1 (now + windowMs)) kv)
    else if count ≥ maxRequests then (false, kv)
    else (true, kvSet (.rateLimit ip) (.rl (count + 1) reset) kv)
  | _ => (true, kvSet (.rateLimit ip) (.rl 1 (now + windowMs)) kv)

/-! ## The POST handler -/

/-- The outcome of the POST handler, one constructor per response shape.
`internalError` (HTTP 500) is produced by the outer `catch`; in this pure
embedding no step throws, so it is never constructed. -/
inductive SubmitResult where
  | success (id : String)
  | validationFailed (details : List Issue)
  | spamRejected
  | rateLimited
  | invalidJson
  | internalError
deriving DecidableEq

/-- HTTP status of each outcome. -/
def statusOf : SubmitResult → Nat
  | .success _ => 201
  | .validationFailed _ => 400
  | .spamRejected => 400
  | .rateLimited => 429
  | .invalidJson => 400
  | .internalError => 500

/-- `expirationSeconds = 7 * 365 * 24 * 60 * 60`, computed in the POST handler
and passed to `kvSet` as `{ ex: expirationSeconds }` — an argument `kvSet`
does not accept. -/
def expirationSeconds : Nat := 7 * 365 * 24 * 60 * 60

structure SubmitOutcome where
  result : SubmitResult
  kv : KV
deriving DecidableEq

/-- The POST handler: rate-limit by `ip`, parse the body (`none` = JSON parse
failure), validate, spam-check, then store the record under `guest:${uuid}`
(`uuid` is the `crypto.randomUUID()` draw of this request) and return 201.
`now` stands for the `Date.now()` / `new Date()` instants of the request. -/
def post (pd : String → Option Int) (now : Int) (ip userAgent uuid : String)
    (body : Option Payload) (kv : KV) : SubmitOutcome :=
  let rl := checkRateLimit ip now kv
  if !rl.1 then ⟨.rateLimited, rl.2⟩
  else
    match body with
    | none => ⟨.invalidJson, rl.2⟩
    | some p =>
      match validate pd now p with
      | .error is => ⟨.validationFailed is, rl.2⟩
      | .ok data =>
        if detectSpamPatterns data then ⟨.spamRejected, rl.2⟩
        else
          ⟨.success uuid,
           kvSet (.guest uuid) (.sub ⟨uuid, now, data, ⟨userAgent, ip, now⟩⟩) rl.2⟩

/-! ## The document renderer (app/api/pdf/[id]/route.ts) and the success page -/

/-- UUID shape check
`/^[0-9a-f]{8}-[0-9a-f]{4}-[0-9a-f]{4}-[0-9a-f]{4}-[0-9a-f]{12}$/i` used by
both the PDF route and the success page.  Hex characters never include `-`,
so splitting on the dashes is faithful to the anchored regex. -/
def isHexChar (c : Char) : Bool :=
  c.isDigit || ('a' ≤ c && c ≤ 'f') || ('A' ≤ c && c ≤ 'F')

def hexGroup (s : String) (n : Nat) : Bool :=
  s.length = n && s.data.all isHexChar

def isValidUUID (s : String) : Bool :=
  match splitStr s '-' with
  | [a, b, c, d, e] =>
    hexGroup a 8 && hexGroup b 4 && hexGroup c 4 && hexGroup d 4 && hexGroup e 12
  | _ => false

/-- Host-provided pieces of the renderer that are external to the repository:
`decodeOk` is whether `atob` succeeds on a payload, `embedOk` whether
pdf-lib's `embedPng`/`embedJpg` accepts the decoded bytes, `fmtDate`/`fmtTime`
are the dayjs format calls, and `renderNow` the render-time clock used by the
footer. -/
structure RenderEnv where
  decodeOk : String → Bool
  embedOk : String → Bool
  fmtDate : String → String
  fmtTime : Int → String
  renderNow : Int

/-- `placeImage(dataUrl, label)`, as the list of text items it draws.  The
source order is: empty data → silent return; missing/empty `split(',')[1]` →
throw, caught → placeholder; `atob` failure → throw, caught → placeholder;
then the format dispatch — png / jpeg / jpg are embedded (an embed failure
throws and is caught → placeholder; success draws the `label:` line and the
image), while any other `data:image/…` subtype hits the `console.warn` branch
and returns with no output at all. -/
def placeImage (decodeOk embedOk : String → Bool) (dataUrl label : String) :
    List String :=
  if dataUrl = "" then []
  else if (dataUrlPayload dataUrl).isEmpty then
    [label ++ ": [Image processing failed]"]
  else if !decodeOk (dataUrlPayload dataUrl) then
    [label ++ ": [Image processing failed]"]
  else if startsWithStr "data:image/png" dataUrl ||
      (startsWithStr "data:image/jpeg" dataUrl || startsWithStr "data:image/jpg" dataUrl) then
    if embedOk (dataUrlPayload dataUrl) then [label ++ ":"]
    else [label ++ ": [Image processing failed]"]
  else []

/-- The legal boilerplate paragraph of the document. -/
def legalText : String :=
  "This record is maintained in compliance with the Immigration Act 13 of 2002 and the Protection of Personal Information Act (POPIA). Personal information may be disclosed to authorities when lawfully required."

/-- All text drawn into the document for record `r` under identifier `id`, in
drawing order.  Each `drawText` call is one item (word-wrapping is layout
only: it splits an item over lines but draws exactly its words); `addField`
draws the label and the value as separate items. -/
def renderTexts (env : RenderEnv) (id : String) (r : SubmissionRecord) :
    List String :=
  ["Guest Registration & Agreement",
   "Republic of South Africa",
   "Submission ID: " ++ id,
   "Generated: " ++ env.fmtTime r.createdAt,
   "Host: [Your Business Name]",
   "Address: [Your Business Address]",
   legalText,
   "GUEST INFORMATION",
   "Full Name:", r.data.fullName,
   "ID/Passport Number:", r.data.idOrPassport,
   "Nationality:", r.data.nationality,
   "Residence Status:", r.data.residenceStatus,
   "Home Address:", r.data.homeAddress,
   "Phone Number:", r.data.phone,
   "Email Address:", r.data.email,
   "ACCOMMODATION DETAILS",
   "Check-in:", env.fmtDate r.data.checkIn,
   "Check-out:", env.fmtDate r.data.checkOut,
   "Number of Guests:", toString r.data.guests,
   "CONSENTS & ACKNOWLEDGMENTS",
   "✓ POPIA Consent: Granted",
   "✓ Non-Refund Policy: Acknowledged",
   "UPLOADED DOCUMENTS"] ++
  placeImage env.decodeOk env.embedOk r.data.selfie "Selfie Photo" ++
  placeImage env.decodeOk env.embedOk r.data.idImage "ID/Passport Document" ++
  placeImage env.decodeOk env.embedOk r.data.signature "Digital Signature" ++
  ["--- End of Registration ---",
   "Document generated on " ++ env.fmtTime env.renderNow]

/-- Outcome of `GET /api/pdf/[id]`. -/
inductive PdfResult where
  | invalidFormat
  | notFound
  | document (texts : List String)
deriving DecidableEq

/-- HTTP status of each PDF outcome. -/
def pdfStatus : PdfResult → Nat
  | .invalidFormat => 400
  | .notFound => 404
  | .document _ => 200

/-- The PDF route: a malformed identifier (including the empty string, which
is falsy) yields the 400 `Invalid ID format` response before any lookup; a
missing record yields 404; otherwise the document is rendered. -/
def pdfGet (env : RenderEnv) (id : String) (kv : KV) : PdfResult :=
  if !isValidUUID id then .invalidFormat
  else
    match kvGet (.guest id) kv with
    | some (.sub r) => .document (renderTexts env id r)
    | _ => .notFound

/-- Outcome of the success page. -/
inductive SuccessView where
  | notFoundPage
  | page (fullName : String) (id : String)
deriving DecidableEq

/-- `SuccessPage`: a missing or malformed identifier calls `notFound()`, as
does a failed or empty lookup; otherwise the summary page for the record is
shown (`fullName` is the greeting's field). -/
def successPage (id : String) (kv : KV) : SuccessView :=
  if !isValidUUID id then .notFoundPage
  else
    match kvGet (.guest id) kv with
    | some (.sub r) => .page r.data.fullName id
    | _ => .notFoundPage

/-! ## Spec-side notion of a decodable payload (for the refinement claim about
the upload validators) -/

/-- Base64 alphabet character. -/
def base64Char (c : Char) : Bool := isAlnum c || c = '+' || c = '/'

/-- Follows the spec's words: the upload field "must contain a decodable
payload after that declaration" — canonical base64: non-empty, length a
multiple of 4, alphabet characters with at most two `=` padding characters at
the end.  (This is the property the validators are claimed to check; the
source never decodes, so this definition is deliberately from the spec, to be
compared against the source-side `imageRefineOk`.) -/
def base64DecodableSpec (s : String) : Bool :=
  !s.isEmpty && s.length % 4 = 0 &&
    (match s.data.reverse with
     | '=' :: '=' :: rest => rest.all base64Char
     | '=' :: rest => rest.all base64Char
     | rest => rest.all base64Char)

/-! ## Concrete inputs used by the witnesses and counterexamples -/

/-- A date-parse table for the witnesses: two valid stay dates in 2030
(2030-01-01 and 2030-01-05, as epoch ms). -/
def wPD : String → Option Int := fun s =>
  if s = "2030-01-01" then some 1893456000000
  else if s = "2030-01-05" then some 1893801600000
  else none

/-- A date-parse table for the date-rule witnesses: `dayA` ↦ 100 ms,
`dayB` ↦ 50 ms (before `dayA`), `dayC` ↦ 100 + 366 days (too long a stay). -/
def wPD2 : String → Option Int := fun s =>
  if s = "dayA" then some 100
  else if s = "dayB" then some 50
  else if s = "dayC" then some (100 + 31622400000)
  else none

/-- A payload that passes every rule of the schema. -/
def wPayload : Payload where
  fullName := some "John Smith"
  idOrPassport := some "AB1234"
  nationality := some "South African"
  residenceStatus := some "Citizen"
  homeAddress := some "12 Main Road Cape Town"
  phone := some "+27123456789"
  email := some "john@example.com"
  checkIn := some "2030-01-01"
  checkOut := some "2030-01-05"
  guests := some 2
  selfie := some "data:image/png;base64,iVBORw0KGgo"
  idImage := some "data:image/png;base64,iVBORw0KGgo"
  signature := some "data:image/png;base64,iVBORw0KGgo"
  popiaConsent := some true
  nonRefundAck := some true

/-- The record `RegistrationSchema.parse` produces on `wPayload`. -/
def wData : RegistrationData where
  fullName := "John Smith"
  idOrPassport := "AB1234"
  nationality := "South African"
  residenceStatus := "Citizen"
  homeAddress := "12 Main Road Cape Town"
  phone := "+27123456789"
  email := "john@example.com"
  checkIn := "2030-01-01"
  checkOut := "2030-01-05"
  guests := 2
  selfie := "data:image/png;base64,iVBORw0KGgo"
  idImage := "data:image/png;base64,iVBORw0KGgo"
  signature := "data:image/png;base64,iVBORw0KGgo"
  popiaConsent := true
  nonRefundAck := true

/-- A well-formed identifier, standing for a `crypto.randomUUID()` draw. -/
def wUuid : String := "123e4567-e89b-12d3-a456-426614174000"

/-- The client identity of the witnesses. -/
def wIp : String := "203.0.113.7"

/-- An empty storage world whose primary store works. -/
def kv0 : KV := ⟨[], [], false⟩

/-- An empty storage world whose primary store throws on every call. -/
def kvF : KV := ⟨[], [], true⟩

/-- A concrete render environment: every payload decodes and embeds, and the
dayjs formats are the identity / the empty string. -/
def env0 : RenderEnv := ⟨fun _ => true, fun _ => true, fun s => s, fun _ => "", 0⟩

/-- Valid payload except: check-out (`dayB`) is before check-in (`dayA`), and
the POPIA consent is `false` (a fatal, type-level failure). -/
def qPayload : Payload :=
  { wPayload with checkIn := some "dayA", checkOut := some "dayB",
                  popiaConsent := some false }

/-- Valid payload except check-out (`dayB`) is before check-in (`dayA`). -/
def badDatesPayload : Payload :=
  { wPayload with checkIn := some "dayA", checkOut := some "dayB" }

/-- Valid payload except the stay `dayA → dayC` lasts 366 days. -/
def longStayPayload : Payload :=
  { wPayload with checkIn := some "dayA", checkOut := some "dayC" }

/-- Valid payload whose name contains the promotional keyword `casino`. -/
def spamPayload : Payload :=
  { wPayload with fullName := some "Casino Winner" }

/-- The record the schema produces on `spamPayload`. -/
def spamData : RegistrationData :=
  { wData with fullName := "Casino Winner" }

/-- A record whose selfie slot declares an image subtype (`gif`) that the
renderer can embed with neither `embedPng` nor `embedJpg`. -/
def gifRecord : SubmissionRecord :=
  ⟨wUuid, 0, { wData with selfie := "data:image/gif;base64,QUFB" }, ⟨"ua", wIp, 0⟩⟩

/-! ## Helper lemmas -/

@[simp]
theorem kvSet_primaryFails (k : Key) (v : KVVal) (kv : KV) :
    (kvSet k v kv).primaryFails = kv.primaryFails := by
  unfold kvSet; split <;> rfl

@[simp]
theorem kvGet_kvSet_same (k : Key) (v : KVVal) (kv : KV) :
    kvGet k (kvSet k v kv) = some v := by
  unfold kvGet kvSet
  by_cases hf : kv.primaryFails <;> simp [hf, kvLookup, memLookup]

theorem kvGet_kvSet_ne {k k' : Key} (h : k ≠ k') (v : KVVal) (kv : KV) :
    kvGet k (kvSet k' v kv) = kvGet k kv := by
  unfold kvGet kvSet
  by_cases hf : kv.primaryFails <;> simp [hf, kvLookup, memLookup, h]

theorem kvSet_primary_of_fails {kv : KV} (h : kv.primaryFails = true)
    (k : Key) (v : KVVal) : (kvSet k v kv).primary = kv.primary := by
  simp [kvSet, h]

theorem checkRateLimit_new {ip : String} {kv : KV} (now : Int)
    (h : kvGet (.rateLimit ip) kv = none) :
    checkRateLimit ip now kv =
      (true, kvSet (.rateLimit ip) (.rl 1 (now + windowMs)) kv) := by
  simp [checkRateLimit, h]

theorem checkRateLimit_count {ip : String} {kv : KV} {c : Nat} {r now : Int}
    (h : kvGet (.rateLimit ip) kv = some (.rl c r))
    (h1 : ¬ r < now) (h2 : c < maxRequests) :
    checkRateLimit ip now kv =
      (true, kvSet (.rateLimit ip) (.rl (c + 1) r) kv) := by
  simp [checkRateLimit, h, h1, Nat.not_le.mpr h2]

theorem checkRateLimit_reject {ip : String} {kv : KV} {c : Nat} {r now : Int}
    (h : kvGet (.rateLimit ip) kv = some (.rl c r))
    (h1 : ¬ r < now) (h2 : maxRequests ≤ c) :
    checkRateLimit ip now kv = (false, kv) := by
  simp [checkRateLimit, h, h1, h2]

theorem checkRateLimit_reset {ip : String} {kv : KV} {c : Nat} {r now : Int}
    (h : kvGet (.rateLimit ip) kv = some (.rl c r)) (h1 : r < now) :
    checkRateLimit ip now kv =
      (true, kvSet (.rateLimit ip) (.rl 1 (now + windowMs)) kv) := by
  simp [checkRateLimit, h, h1]

theorem checkRateLimit_primaryFails (ip : String) (now : Int) (kv : KV) :
    ((checkRateLimit ip now kv).2).primaryFails = kv.primaryFails := by
  unfold checkRateLimit
  split <;> (try split) <;> (try split) <;> simp

theorem checkRateLimit_guest (ip : String) (now : Int) (kv : KV) (u : String) :
    kvGet (.guest u) ((checkRateLimit ip now kv).2) = kvGet (.guest u) kv := by
  unfold checkRateLimit
  split <;> (try split) <;> (try split) <;>
    simp [kvGet_kvSet_ne (by simp : Key.guest u ≠ Key.rateLimit ip)]

theorem checkRateLimit_primary_of_fails {kv : KV} (h : kv.primaryFails = true)
    (ip : String) (now : Int) :
    ((checkRateLimit ip now kv).2).primary = kv.primary := by
  unfold checkRateLimit
  split <;> (try split) <;> (try split) <;> simp [kvSet_primary_of_fails h]

theorem post_rateLimited {pd : String → Option Int} {now : Int}
    {ip ua uuid : String} {kv : KV}
    (h : (checkRateLimit ip now kv).1 = false) (body : Option Payload) :
    post pd now ip ua uuid body kv = ⟨.rateLimited, (checkRateLimit ip now kv).2⟩ := by
  simp [post, h]

theorem post_validationFailed {pd : String → Option Int} {now : Int}
    {ip ua uuid : String} {kv : KV} {p : Payload} {is : List Issue}
    (hrl : (checkRateLimit ip now kv).1 = true)
    (hv : validate pd now p = .error is) :
    post pd now ip ua uuid (some p) kv =
      ⟨.validationFailed is, (checkRateLimit ip now kv).2⟩ := by
  simp [post, hrl, hv]

theorem post_spamRejected {pd : String → Option Int} {now : Int}
    {ip ua uuid : String} {kv : KV} {p : Payload} {data : RegistrationData}
    (hrl : (checkRateLimit ip now kv).1 = true)
    (hv : validate pd now p = .ok data)
    (hs : detectSpamPatterns data = true) :
    post pd now ip ua uuid (some p) kv =
      ⟨.spamRejected, (checkRateLimit ip now kv).2⟩ := by
  simp [post, hrl, hv, hs]

theorem post_success {pd : String → Option Int} {now : Int}
    {ip ua uuid : String} {kv : KV} {p : Payload} {data : RegistrationData}
    (hrl : (checkRateLimit ip now kv).1 = true)
    (hv : validate pd now p = .ok data)
    (hs : detectSpamPatterns data = false) :
    post pd now ip ua uuid (some p) kv =
      ⟨.success uuid,
       kvSet (.guest uuid) (.sub ⟨uuid, now, data, ⟨ua, ip, now⟩⟩)
         (checkRateLimit ip now kv).2⟩ := by
  simp [post, hrl, hv, hs]

theorem validate_eq_error {pd : String → Option Int} {now : Int} {p : Payload}
    (h : allIssues pd now p ≠ []) :
    validate pd now p = .error (allIssues pd now p) := by
  unfold validate
  split
  · exact absurd (by assumption) h
  · rfl

theorem validate_error_elim {pd : String → Option Int} {now : Int} {p : Payload}
    {is : List Issue} (h : validate pd now p = .error is) :
    allIssues pd now p = is := by
  unfold validate at h
  split at h
  · cases h
  · exact Except.error.inj h

theorem validate_error_of_mem {pd : String → Option Int} {now : Int}
    {p : Payload} {x : Issue} (h : x ∈ allIssues pd now p) :
    ∃ is, validate pd now p = .error is ∧ x ∈ is :=
  ⟨allIssues pd now p, validate_eq_error (List.ne_nil_of_mem h), h⟩

theorem optField_isNone_false {α : Type} {f : String} {o : Option α}
    {cks : α → List String} (h : optField f o cks = []) : o.isNone = false := by
  cases o
  · simp [optField] at h
  · rfl

theorem consentField_beq {f m : String} {o : Option Bool}
    (h : consentField f m o = []) : (o == some true) = true := by
  cases o with
  | none => simp [consentField] at h
  | some b => cases b <;> simp [consentField] at h ⊢

theorem aborted_false_of_fieldIssues_nil {pd : String → Option Int} {now : Int}
    {p : Payload} (h : fieldIssues pd now p = []) : aborted p = false := by
  simp only [fieldIssues, List.append_eq_nil, and_assoc] at h
  obtain ⟨h1, h2, h3, h4, h5, h6, h7, h8, h9, h10, h11, h12, h13, h14, h15⟩ := h
  simp [aborted, optField_isNone_false h1, optField_isNone_false h2,
    optField_isNone_false h3, optField_isNone_false h4, optField_isNone_false h5,
    optField_isNone_false h6, optField_isNone_false h7, optField_isNone_false h8,
    optField_isNone_false h9, optField_isNone_false h10, optField_isNone_false h11,
    optField_isNone_false h12, optField_isNone_false h13,
    consentField_beq h14, consentField_beq h15]

theorem allIssues_ne_of_aborted {pd : String → Option Int} {now : Int}
    {p : Payload} (h : aborted p = true) : allIssues pd now p ≠ [] := by
  intro hnil
  have hf : fieldIssues pd now p = [] := (List.append_eq_nil.mp hnil).1
  rw [aborted_false_of_fieldIssues_nil hf] at h
  cases h

theorem checkIn_future_issue_mem {pd : String → Option Int} {now : Int}
    {p : Payload} {ci : String} (hci : p.checkIn = some ci)
    (hd : dateAfter pd ci now = false) :
    ("checkIn", "Check-in date must be in the future") ∈ allIssues pd now p := by
  apply List.mem_append_left
  simp [fieldIssues, optField, hci, checkInIssues, checkIssue, hd]

theorem cross_after_issue_mem {pd : String → Option Int} {now : Int}
    {p : Payload} {ci co : String} (hab : aborted p = false)
    (hci : p.checkIn = some ci) (hco : p.checkOut = some co)
    (hv : checkOutAfter pd ci co = false) :
    ("checkOut", "Check-out date must be after check-in date") ∈ allIssues pd now p := by
  apply List.mem_append_right
  simp [hab, crossIssues, hci, hco, checkIssue, hv]

theorem cross_duration_issue_mem {pd : String → Option Int} {now : Int}
    {p : Payload} {ci co : String} (hab : aborted p = false)
    (hci : p.checkIn = some ci) (hco : p.checkOut = some co)
    (hv : durationOk pd ci co = false) :
    ("checkOut", "Stay duration cannot exceed 365 days") ∈ allIssues pd now p := by
  apply List.mem_append_right
  simp [hab, crossIssues, hci, hco, checkIssue, hv]

/-! ## The claims -/

/-- C1 (code bug): the route computes `expirationSeconds = 7 years` and passes
`{ ex: expirationSeconds }` as a third argument to `kvSet`, but
`kvSet(key, value)` has no TTL parameter and calls `kv.set(key, value)`
without an expiry — so every successful submission is persisted with NO
retention TTL attached at write time: the stored binding's expiry is `none`,
not the claimed 7-year TTL. -/
theorem c1_no_retention_ttl (pd : String → Option Int) (now : Int)
    (ip ua uuid : String) (p : Payload) (kv : KV) (data : RegistrationData)
    (hrl : (checkRateLimit ip now kv).1 = true)
    (hv : validate pd now p = .ok data)
    (hs : detectSpamPatterns data = false)
    (hf : kv.primaryFails = false) :
    kvLookup (.guest uuid) ((post pd now ip ua uuid (some p) kv).kv).primary =
      some (.sub ⟨uuid, now, data, ⟨ua, ip, now⟩⟩, (none : Option Nat)) ∧
    (none : Option Nat) ≠ some expirationSeconds := by
  constructor
  · rw [post_success hrl hv hs]
    have hf2 : ((checkRateLimit ip now kv).2).primaryFails = false := by
      rw [checkRateLimit_primaryFails]; exact hf
    simp [kvSet, hf2, kvLookup]
  · simp

/-- Witness for C1 at a concrete valid submission. -/
theorem c1_no_retention_ttl_witness :
    validate wPD 0 wPayload = .ok wData ∧
    (kvLookup (.guest wUuid) ((post wPD 0 wIp "ua" wUuid (some wPayload) kv0).kv).primary =
       some (.sub ⟨wUuid, 0, wData, ⟨"ua", wIp, 0⟩⟩, (none : Option Nat)) ∧
     (none : Option Nat) ≠ some expirationSeconds) :=
  ⟨rfl, c1_no_retention_ttl wPD 0 wIp "ua" wUuid wPayload kv0 wData
    (by decide) rfl (by decide) rfl⟩

/-- C2 counterexample: with the primary store failing on every call
(`kvF.primaryFails = true`), a valid, non-spam submission still returns the
success outcome (HTTP 201), not the claimed internal-error outcome
(HTTP 500): the store-layer write failure during persistence does not
propagate. -/
theorem c2_counterexample :
    kvF.primaryFails = true ∧
    (post wPD 0 wIp "ua" wUuid (some wPayload) kvF).result = .success wUuid ∧
    statusOf (post wPD 0 wIp "ua" wUuid (some wPayload) kvF).result = 201 ∧
    (post wPD 0 wIp "ua" wUuid (some wPayload) kvF).result ≠ .internalError := by
  exact ⟨rfl, rfl, rfl, by decide⟩

/-- C2 (amended): when the store-layer write fails while persisting a
validated, non-spam submission, `kvSet` absorbs the error into the in-memory
fallback map; the handler reports success (HTTP 201), the record is readable
back through `kvGet` (from the fallback), and the primary store is untouched.
Store errors never propagate out of the persistence layer. -/
theorem c2_store_failure_absorbed (pd : String → Option Int) (now : Int)
    (ip ua uuid : String) (p : Payload) (kv : KV) (data : RegistrationData)
    (hf : kv.primaryFails = true)
    (hrl : (checkRateLimit ip now kv).1 = true)
    (hv : validate pd now p = .ok data)
    (hs : detectSpamPatterns data = false) :
    (post pd now ip ua uuid (some p) kv).result = .success uuid ∧
    statusOf (post pd now ip ua uuid (some p) kv).result = 201 ∧
    kvGet (.guest uuid) (post pd now ip ua uuid (some p) kv).kv =
      some (.sub ⟨uuid, now, data, ⟨ua, ip, now⟩⟩) ∧
    ((post pd now ip ua uuid (some p) kv).kv).primary = kv.primary := by
  rw [post_success hrl hv hs]
  refine ⟨rfl, rfl, kvGet_kvSet_same _ _ _, ?_⟩
  have hf2 : ((checkRateLimit ip now kv).2).primaryFails = true := by
    rw [checkRateLimit_primaryFails]; exact hf
  rw [kvSet_primary_of_fails hf2, checkRateLimit_primary_of_fails hf]

/-- Witness for the amended C2 at a concrete valid submission. -/
theorem c2_store_failure_absorbed_witness :
    kvF.primaryFails = true ∧
    ((post wPD 0 wIp "ua" wUuid (some wPayload) kvF).result = .success wUuid ∧
     statusOf (post wPD 0 wIp "ua" wUuid (some wPayload) kvF).result = 201 ∧
     kvGet (.guest wUuid) (post wPD 0 wIp "ua" wUuid (some wPayload) kvF).kv =
       some (.sub ⟨wUuid, 0, wData, ⟨"ua", wIp, 0⟩⟩) ∧
     ((post wPD 0 wIp "ua" wUuid (some wPayload) kvF).kv).primary = kvF.primary) :=
  ⟨rfl, c2_store_failure_absorbed wPD 0 wIp "ua" wUuid wPayload kvF wData
    rfl (by decide) rfl (by decide)⟩

/-- C3: submitting a valid, non-spam payload (with a fresh
`crypto.randomUUID()` draw `uuid`, i.e. a well-formed identifier not
previously stored) returns success with that identifier, and a subsequent
render of the identifier produces a document (not a not-found outcome) whose
drawn text contains the submitted full name and the two consent
acknowledgments as granted. -/
theorem c3_submit_then_render (pd : String → Option Int) (now : Int)
    (ip ua uuid : String) (p : Payload) (kv : KV) (env : RenderEnv)
    (data : RegistrationData)
    (hrl : (checkRateLimit ip now kv).1 = true)
    (hv : validate pd now p = .ok data)
    (hs : detectSpamPatterns data = false)
    (hid : isValidUUID uuid = true)
    (hfresh : kvGet (.guest uuid) kv = none) :
    (post pd now ip ua uuid (some p) kv).result = .success uuid ∧
    kvGet (.guest uuid) kv = none ∧
    ∃ ts, pdfGet env uuid (post pd now ip ua uuid (some p) kv).kv = .document ts ∧
      data.fullName ∈ ts ∧
      "✓ POPIA Consent: Granted" ∈ ts ∧
      "✓ Non-Refund Policy: Acknowledged" ∈ ts := by
  rw [post_success hrl hv hs]
  refine ⟨rfl, hfresh,
    renderTexts env uuid ⟨uuid, now, data, ⟨ua, ip, now⟩⟩, ?_, ?_, ?_, ?_⟩
  · simp [pdfGet, hid, kvGet_kvSet_same]
  · simp [renderTexts]
  · simp [renderTexts]
  · simp [renderTexts]

/-- Witness for C3 at a concrete valid submission. -/
theorem c3_submit_then_render_witness :
    validate wPD 0 wPayload = .ok wData ∧
    ((post wPD 0 wIp "ua" wUuid (some wPayload) kv0).result = .success wUuid ∧
     kvGet (.guest wUuid) kv0 = none ∧
     ∃ ts, pdfGet env0 wUuid (post wPD 0 wIp "ua" wUuid (some wPayload) kv0).kv =
         .document ts ∧
       wData.fullName ∈ ts ∧
       "✓ POPIA Consent: Granted" ∈ ts ∧
       "✓ Non-Refund Policy: Acknowledged" ∈ ts) :=
  ⟨rfl, c3_submit_then_render wPD 0 wIp "ua" wUuid wPayload kv0 env0 wData
    (by decide) rfl (by decide) (by decide) rfl⟩

/-- C4: for one client identity starting from a store with no rate-limit
record, the first three attempts inside the 15-minute window are allowed, the
fourth and a subsequent attempt inside the window are rejected (and the POST
handler then answers with the rate-limited outcome, HTTP 429, for any body),
and once the window's reset time has passed the next attempt is allowed again
and starts a fresh window whose counter is 1. -/
theorem c4_rate_limit_window (ip : String) (kv0' : KV) (t1 t2 t3 t4 t4b t5 : Int)
    (h0 : kvGet (.rateLimit ip) kv0' = none)
    (h2 : t2 ≤ t1 + windowMs) (h3 : t3 ≤ t1 + windowMs)
    (h4 : t4 ≤ t1 + windowMs) (h4b : t4b ≤ t1 + windowMs)
    (h5 : t1 + windowMs < t5) :
    let s1 := checkRateLimit ip t1 kv0'
    let s2 := checkRateLimit ip t2 s1.2
    let s3 := checkRateLimit ip t3 s2.2
    let s4 := checkRateLimit ip t4 s3.2
    let s4b := checkRateLimit ip t4b s4.2
    let s5 := checkRateLimit ip t5 s4b.2
    s1.1 = true ∧ s2.1 = true ∧ s3.1 = true ∧
    s4.1 = false ∧ s4b.1 = false ∧
    (∀ (pd : String → Option Int) (ua uuid : String) (body : Option Payload),
      (post pd t4 ip ua uuid body s3.2).result = .rateLimited ∧
      statusOf (post pd t4 ip ua uuid body s3.2).result = 429) ∧
    s5.1 = true ∧
    kvGet (.rateLimit ip) s5.2 = some (.rl 1 (t5 + windowMs)) := by
  intro s1 s2 s3 s4 s4b s5
  have e1 : s1 = (true, kvSet (.rateLimit ip) (.rl 1 (t1 + windowMs)) kv0') :=
    checkRateLimit_new t1 h0
  have g1 : kvGet (.rateLimit ip) s1.2 = some (.rl 1 (t1 + windowMs)) := by
    rw [e1]; exact kvGet_kvSet_same _ _ _
  have e2 : s2 = (true, kvSet (.rateLimit ip) (.rl 2 (t1 + windowMs)) s1.2) :=
    checkRateLimit_count g1 (by omega) (by decide)
  have g2 : kvGet (.rateLimit ip) s2.2 = some (.rl 2 (t1 + windowMs)) := by
    rw [e2]; exact kvGet_kvSet_same _ _ _
  have e3 : s3 = (true, kvSet (.rateLimit ip) (.rl 3 (t1 + windowMs)) s2.2) :=
    checkRateLimit_count g2 (by omega) (by decide)
  have g3 : kvGet (.rateLimit ip) s3.2 = some (.rl 3 (t1 + windowMs)) := by
    rw [e3]; exact kvGet_kvSet_same _ _ _
  have e4 : s4 = (false, s3.2) :=
    checkRateLimit_reject g3 (by omega) (by decide)
  have g4 : kvGet (.rateLimit ip) s4.2 = some (.rl 3 (t1 + windowMs)) := by
    rw [e4]; exact g3
  have e4b : s4b = (false, s4.2) :=
    checkRateLimit_reject g4 (by omega) (by decide)
  have g4b : kvGet (.rateLimit ip) s4b.2 = some (.rl 3 (t1 + windowMs)) := by
    rw [e4b]; exact g4
  have e5 : s5 = (true, kvSet (.rateLimit ip) (.rl 1 (t5 + windowMs)) s4b.2) :=
    checkRateLimit_reset g4b (by omega)
  refine ⟨by rw [e1], by rw [e2], by rw [e3], by rw [e4], by rw [e4b],
    ?_, by rw [e5], by rw [e5]; exact kvGet_kvSet_same _ _ _⟩
  intro pd ua uuid body
  have h4f : (checkRateLimit ip t4 s3.2).1 = false := by
    show s4.1 = false
    rw [e4]
  rw [post_rateLimited h4f body]
  exact ⟨rfl, rfl⟩

/-- Witness for C4: five attempts at instant 0 and one at 900001 ms. -/
theorem c4_rate_limit_window_witness :
    let s1 := checkRateLimit wIp 0 kv0
    let s2 := checkRateLimit wIp 0 s1.2
    let s3 := checkRateLimit wIp 0 s2.2
    let s4 := checkRateLimit wIp 0 s3.2
    let s4b := checkRateLimit wIp 0 s4.2
    let s5 := checkRateLimit wIp 900001 s4b.2
    s1.1 = true ∧ s2.1 = true ∧ s3.1 = true ∧
    s4.1 = false ∧ s4b.1 = false ∧
    (∀ (pd : String → Option Int) (ua uuid : String) (body : Option Payload),
      (post pd 0 wIp ua uuid body s3.2).result = .rateLimited ∧
      statusOf (post pd 0 wIp ua uuid body s3.2).result = 429) ∧
    s5.1 = true ∧
    kvGet (.rateLimit wIp) s5.2 = some (.rl 1 (900001 + windowMs)) :=
  c4_rate_limit_window wIp kv0 0 0 0 0 0 900001 rfl
    (by decide) (by decide) (by decide) (by decide) (by decide)

/-- C5: the schema rejects a payload whose check-in is not strictly in the
future at validation time, with the error attached to `checkIn`; it rejects a
payload whose check-out is not strictly after check-in, and one whose
check-out − check-in duration exceeds 365 days, and whenever no field failed
fatally these two cross-field errors are attached to `checkOut`. -/
theorem c5_date_rules (pd : String → Option Int) (now : Int) (p : Payload) :
    (∀ ci, p.checkIn = some ci → dateAfter pd ci now = false →
      ∃ is, validate pd now p = .error is ∧
        ("checkIn", "Check-in date must be in the future") ∈ is) ∧
    (∀ ci co, p.checkIn = some ci → p.checkOut = some co →
      checkOutAfter pd ci co = false →
      ∃ is, validate pd now p = .error is ∧
        (aborted p = false →
          ("checkOut", "Check-out date must be after check-in date") ∈ is)) ∧
    (∀ ci co, p.checkIn = some ci → p.checkOut = some co →
      durationOk pd ci co = false →
      ∃ is, validate pd now p = .error is ∧
        (aborted p = false →
          ("checkOut", "Stay duration cannot exceed 365 days") ∈ is)) := by
  refine ⟨?_, ?_, ?_⟩
  · intro ci hci hd
    exact validate_error_of_mem (checkIn_future_issue_mem hci hd)
  · intro ci co hci hco hv
    by_cases hab : aborted p = true
    · exact ⟨allIssues pd now p,
        validate_eq_error (allIssues_ne_of_aborted hab), fun hf => by
          rw [hf] at hab; cases hab⟩
    · have hab' : aborted p = false := by
        cases h : aborted p
        · rfl
        · exact absurd h hab
      have hm := @cross_after_issue_mem pd now p ci co hab' hci hco hv
      exact ⟨allIssues pd now p, validate_eq_error (List.ne_nil_of_mem hm),
        fun _ => hm⟩
  · intro ci co hci hco hv
    by_cases hab : aborted p = true
    · exact ⟨allIssues pd now p,
        validate_eq_error (allIssues_ne_of_aborted hab), fun hf => by
          rw [hf] at hab; cases hab⟩
    · have hab' : aborted p = false := by
        cases h : aborted p
        · rfl
        · exact absurd h hab
      have hm := @cross_duration_issue_mem pd now p ci co hab' hci hco hv
      exact ⟨allIssues pd now p, validate_eq_error (List.ne_nil_of_mem hm),
        fun _ => hm⟩

/-- Witness for C5: a past check-in at instant 200 (`dayA` parses to 100 ms),
a check-out before check-in (`dayB` at 50 ms), and a 366-day stay (`dayC`). -/
theorem c5_date_rules_witness :
    (∃ is, validate wPD2 200 badDatesPayload = .error is ∧
      ("checkIn", "Check-in date must be in the future") ∈ is) ∧
    (∃ is, validate wPD2 200 badDatesPayload = .error is ∧
      (aborted badDatesPayload = false →
        ("checkOut", "Check-out date must be after check-in date") ∈ is)) ∧
    (∃ is, validate wPD2 200 longStayPayload = .error is ∧
      (aborted longStayPayload = false →
        ("checkOut", "Stay duration cannot exceed 365 days") ∈ is)) :=
  ⟨(c5_date_rules wPD2 200 badDatesPayload).1 "dayA" rfl (by decide),
   (c5_date_rules wPD2 200 badDatesPayload).2.1 "dayA" "dayB" rfl rfl (by decide),
   (c5_date_rules wPD2 200 longStayPayload).2.2 "dayA" "dayC" rfl rfl (by decide)⟩

/-- C6 counterexample: the selfie validator accepts
`"data:image/png,****"` (no issue at all) although the payload after the
declaration, `"****"`, is not decodable base64 — so validation does NOT
require a decodable payload, contrary to the claim. -/
theorem c6_counterexample :
    selfieChecks "data:image/png,****" = [] ∧
    base64DecodableSpec (dataUrlPayload "data:image/png,****") = false := by
  decide

/-- C6 (amended): each upload validator accepts a present value exactly when
it is at least 10 characters, begins with `data:image/`, has a non-empty
segment after the first comma, and that segment's estimated decoded size
(`length * 3 / 4`) is within the field ceiling (5MB for selfie and ID image,
1MB for the signature); decodability of the payload is never checked.  An
absent field fails with the `Required` issue on that same field. -/
theorem c6_image_field_rules (s : String) :
    (selfieChecks s = [] ↔
      (10 ≤ s.length ∧ startsWithStr "data:image/" s = true ∧
       (dataUrlPayload s).isEmpty = false ∧
       (dataUrlPayload s).length * 3 ≤ maxImageBytes * 4)) ∧
    (idImageChecks s = [] ↔
      (10 ≤ s.length ∧ startsWithStr "data:image/" s = true ∧
       (dataUrlPayload s).isEmpty = false ∧
       (dataUrlPayload s).length * 3 ≤ maxImageBytes * 4)) ∧
    (signatureChecks s = [] ↔
      (10 ≤ s.length ∧ startsWithStr "data:image/" s = true ∧
       (dataUrlPayload s).isEmpty = false ∧
       (dataUrlPayload s).length * 3 ≤ maxSigBytes * 4)) ∧
    optField "selfie" (none : Option String) selfieChecks =
      [("selfie", "Required")] ∧
    optField "idImage" (none : Option String) idImageChecks =
      [("idImage", "Required")] ∧
    optField "signature" (none : Option String) signatureChecks =
      [("signature", "Required")] := by
  refine ⟨?_, ?_, ?_, rfl, rfl, rfl⟩ <;>
    simp [selfieChecks, idImageChecks, signatureChecks, imageFieldIssues,
      checkIssue, imageRefineOk, List.append_eq_nil, Nat.not_lt,
      Bool.and_eq_true, and_assoc, Bool.not_eq_true']

/-- C7 counterexample: `qPayload` violates the check-out-after-check-in rule
(`checkOutAfter` is false on its dates) and has a non-true POPIA consent; the
produced details list contains only the consent entry — the violated
cross-field rule has no `{field, message}` entry, so not every violated rule
is surfaced. -/
theorem c7_counterexample :
    validate wPD2 0 qPayload = .error [("popiaConsent", "POPIA consent is required")] ∧
    qPayload.checkIn = some "dayA" ∧ qPayload.checkOut = some "dayB" ∧
    checkOutAfter wPD2 "dayA" "dayB" = false ∧
    ("checkOut", "Check-out date must be after check-in date") ∉
      [(("popiaConsent" : String), ("POPIA consent is required" : String))] := by
  exact ⟨rfl, rfl, rfl, by decide, by decide⟩

/-- C7 (amended): when validation fails the handler returns HTTP 400 whose
details are exactly the collected issues — all field-level violations
together, each attributed to its field, plus the cross-field violations
whenever no field failed fatally (a missing value or a non-true consent
literal skips the cross-field checks) — and no record is stored: every
`guest:` binding of the store is unchanged. -/
theorem c7_validation_failure (pd : String → Option Int) (now : Int)
    (ip ua uuid : String) (p : Payload) (kv : KV) (is : List Issue)
    (hrl : (checkRateLimit ip now kv).1 = true)
    (hv : validate pd now p = .error is) :
    (post pd now ip ua uuid (some p) kv).result = .validationFailed is ∧
    statusOf ((post pd now ip ua uuid (some p) kv).result) = 400 ∧
    is = fieldIssues pd now p ++
      (if aborted p then []
       else crossIssues pd (p.checkIn.getD "") (p.checkOut.getD "")) ∧
    (∀ u, kvGet (.guest u) (post pd now ip ua uuid (some p) kv).kv =
      kvGet (.guest u) kv) := by
  rw [post_validationFailed hrl hv]
  refine ⟨rfl, rfl, (validate_error_elim hv).symm, fun u => ?_⟩
  exact checkRateLimit_guest ip now kv u

/-- Witness for the amended C7 at the concrete failing payload. -/
theorem c7_validation_failure_witness :
    validate wPD2 0 qPayload = .error [("popiaConsent", "POPIA consent is required")] ∧
    ((post wPD2 0 wIp "ua" wUuid (some qPayload) kv0).result =
       .validationFailed [("popiaConsent", "POPIA consent is required")] ∧
     statusOf ((post wPD2 0 wIp "ua" wUuid (some qPayload) kv0).result) = 400 ∧
     [(("popiaConsent" : String), ("POPIA consent is required" : String))] =
       fieldIssues wPD2 0 qPayload ++
       (if aborted qPayload then []
        else crossIssues wPD2 (qPayload.checkIn.getD "") (qPayload.checkOut.getD "")) ∧
     (∀ u, kvGet (.guest u) (post wPD2 0 wIp "ua" wUuid (some qPayload) kv0).kv =
       kvGet (.guest u) kv0)) :=
  ⟨rfl, c7_validation_failure wPD2 0 wIp "ua" wUuid qPayload kv0
    [("popiaConsent", "POPIA consent is required")] (by decide) rfl⟩

/-- C8: for a payload that passed validation (and was not rate-limited), the
handler rejects it with the generic 400 outcome (`spamRejected`, a response
carrying no detail of the detection rule) if and only if the lower-cased
concatenation of full name, email and home address contains a run of at least
11 of one repeated non-line-terminator character (`.` does not match line
terminators), a `test`/`fake`/`spam`/`dummy`-then-digits-then-`@` pattern,
only whitespace, or one of the fixed promotional keywords
(case-insensitively, on word boundaries). -/
theorem c8_spam_iff (pd : String → Option Int) (now : Int)
    (ip ua uuid : String) (p : Payload) (kv : KV) (data : RegistrationData)
    (hrl : (checkRateLimit ip now kv).1 = true)
    (hv : validate pd now p = .ok data) :
    ((post pd now ip ua uuid (some p) kv).result = .spamRejected ↔
      (hasLongRun (spamText data) = true ∨ hasTestEmail (spamText data) = true ∨
       isBlankText (spamText data) = true ∨ hasPromoKeyword (spamText data) = true)) ∧
    statusOf .spamRejected = 400 := by
  refine ⟨⟨?_, ?_⟩, rfl⟩
  · intro h
    cases hs : detectSpamPatterns data with
    | true =>
      have hd := hs
      simp only [detectSpamPatterns, Bool.or_eq_true, or_assoc] at hd
      exact hd
    | false =>
      rw [post_success hrl hv hs] at h
      cases h
  · intro h
    have hs : detectSpamPatterns data = true := by
      simp only [detectSpamPatterns, Bool.or_eq_true, or_assoc]
      exact h
    rw [post_spamRejected hrl hv hs]

set_option maxHeartbeats 2000000 in
/-- Witness for C8: the promotional keyword `casino` inside an otherwise
valid payload causes the generic spam rejection. -/
theorem c8_spam_iff_witness :
    validate wPD 0 spamPayload = .ok spamData ∧
    (post wPD 0 wIp "ua" wUuid (some spamPayload) kv0).result = .spamRejected ∧
    statusOf .spamRejected = 400 :=
  ⟨rfl,
   (c8_spam_iff wPD 0 wIp "ua" wUuid spamPayload kv0 spamData
     (by decide) rfl).1.mpr (Or.inr (Or.inr (Or.inr (by decide)))),
   (c8_spam_iff wPD 0 wIp "ua" wUuid spamPayload kv0 spamData
     (by decide) rfl).2⟩

set_option maxHeartbeats 2000000 in
set_option maxRecDepth 4096 in
/-- C9 counterexample: a stored record whose selfie declares the `gif`
subtype (which the renderer can embed with neither `embedPng` nor `embedJpg`)
renders to a complete document, but the selfie slot produces no output at
all — no textual placeholder is drawn for it, contrary to the claim. -/
theorem c9_counterexample :
    pdfGet env0 wUuid (kvSet (.guest wUuid) (.sub gifRecord) kv0) =
      .document (renderTexts env0 wUuid gifRecord) ∧
    placeImage env0.decodeOk env0.embedOk "data:image/gif;base64,QUFB"
      "Selfie Photo" = [] ∧
    "Selfie Photo: [Image processing failed]" ∉ renderTexts env0 wUuid gifRecord ∧
    ("Selfie Photo:" : String) ∉ renderTexts env0 wUuid gifRecord := by
  exact ⟨by decide, by decide, by decide, by decide⟩

/-- C9 (amended): a slot whose payload fails to decode, or whose png or
jpeg/jpg payload fails to embed, degrades to the textual placeholder for that
slot; but a slot whose declared subtype is neither png nor jpeg/jpg is
skipped silently with no output (and no placeholder).  In every case the rest
of the document is produced: rendering is total and the header and footer are
always present. -/
theorem c9_image_failure_isolation :
    (∀ (dec emb : String → Bool) (d l : String),
      d ≠ "" → (dataUrlPayload d).isEmpty = false →
      dec (dataUrlPayload d) = false →
      placeImage dec emb d l = [l ++ ": [Image processing failed]"]) ∧
    (∀ (dec emb : String → Bool) (d l : String),
      (startsWithStr "data:image/png" d ||
        (startsWithStr "data:image/jpeg" d || startsWithStr "data:image/jpg" d)) = true →
      (dataUrlPayload d).isEmpty = false →
      dec (dataUrlPayload d) = true → emb (dataUrlPayload d) = false →
      placeImage dec emb d l = [l ++ ": [Image processing failed]"]) ∧
    (∀ (dec emb : String → Bool) (d l : String),
      d ≠ "" → (dataUrlPayload d).isEmpty = false →
      dec (dataUrlPayload d) = true →
      startsWithStr "data:image/png" d = false →
      startsWithStr "data:image/jpeg" d = false →
      startsWithStr "data:image/jpg" d = false →
      placeImage dec emb d l = []) ∧
    (∀ (env : RenderEnv) (id : String) (r : SubmissionRecord),
      "Guest Registration & Agreement" ∈ renderTexts env id r ∧
      "--- End of Registration ---" ∈ renderTexts env id r) := by
  refine ⟨?_, ?_, ?_, ?_⟩
  · intro dec emb d l hd hpay hdec
    simp [placeImage, hd, hpay, hdec]
  · intro dec emb d l hfmt hpay hdec hemb
    have hd : d ≠ "" := by
      intro he
      rw [he] at hfmt
      exact absurd hfmt (by decide)
    simp [placeImage, hd, hpay, hdec, hfmt, hemb]
  · intro dec emb d l hd hpay hdec hpng hjpeg hjpg
    simp [placeImage, hd, hpay, hdec, hpng, hjpeg, hjpg]
  · intro env id r
    constructor
    · simp [renderTexts]
    · simp [renderTexts]

/-- Witness for the amended C9: an undecodable png payload yields the
placeholder, png and jpeg payloads that fail to embed yield the placeholder,
a gif payload is skipped, and the document around the slots is rendered. -/
theorem c9_image_failure_isolation_witness :
    placeImage (fun _ => false) (fun _ => true) "data:image/png,****"
      "Selfie Photo" = ["Selfie Photo: [Image processing failed]"] ∧
    placeImage (fun _ => true) (fun _ => false) "data:image/png;base64,QUFB"
      "Selfie Photo" = ["Selfie Photo: [Image processing failed]"] ∧
    placeImage (fun _ => true) (fun _ => false) "data:image/jpeg;base64,QUFB"
      "Digital Signature" = ["Digital Signature: [Image processing failed]"] ∧
    placeImage (fun _ => true) (fun _ => true) "data:image/gif;base64,QUFB"
      "ID/Passport Document" = [] ∧
    ("Guest Registration & Agreement" ∈ renderTexts env0 wUuid gifRecord ∧
     "--- End of Registration ---" ∈ renderTexts env0 wUuid gifRecord) :=
  ⟨c9_image_failure_isolation.1 (fun _ => false) (fun _ => true)
     "data:image/png,****" "Selfie Photo" (by decide) (by decide) rfl,
   c9_image_failure_isolation.2.1 (fun _ => true) (fun _ => false)
     "data:image/png;base64,QUFB" "Selfie Photo"
     (by decide) (by decide) rfl rfl,
   c9_image_failure_isolation.2.1 (fun _ => true) (fun _ => false)
     "data:image/jpeg;base64,QUFB" "Digital Signature"
     (by decide) (by decide) rfl rfl,
   c9_image_failure_isolation.2.2.1 (fun _ => true) (fun _ => true)
     "data:image/gif;base64,QUFB" "ID/Passport Document"
     (by decide) (by decide) rfl (by decide) (by decide) (by decide),
   c9_image_failure_isolation.2.2.2 env0 wUuid gifRecord⟩

/-- C10 counterexample: rendering the malformed identifier `not-a-uuid`
produces the 400 invalid-format outcome, not the claimed not-found
outcome. -/
theorem c10_counterexample :
    pdfGet env0 "not-a-uuid" kv0 = .invalidFormat ∧
    pdfStatus (pdfGet env0 "not-a-uuid" kv0) = 400 ∧
    pdfGet env0 "not-a-uuid" kv0 ≠ .notFound := by
  exact ⟨by decide, by decide, by decide⟩

/-- C10 (amended): for an identifier that does not match the canonical UUID
shape, the success view is a not-found page, but the document render returns
the invalid-format outcome (HTTP 400, a format-validation response), not a
not-found outcome; the render's not-found outcome (HTTP 404) is reserved for
well-formed identifiers with no stored record (on which the success view is
also a not-found page). -/
theorem c10_malformed_identifier :
    (∀ (id : String) (kv : KV) (env : RenderEnv), isValidUUID id = false →
      successPage id kv = .notFoundPage ∧
      pdfGet env id kv = .invalidFormat ∧
      pdfStatus (pdfGet env id kv) = 400 ∧
      pdfGet env id kv ≠ .notFound) ∧
    (∀ (id : String) (kv : KV) (env : RenderEnv), isValidUUID id = true →
      kvGet (.guest id) kv = none →
      pdfGet env id kv = .notFound ∧
      pdfStatus (pdfGet env id kv) = 404 ∧
      successPage id kv = .notFoundPage) := by
  constructor
  · intro id kv env h
    have hp : pdfGet env id kv = .invalidFormat := by simp [pdfGet, h]
    exact ⟨by simp [successPage, h], hp, by rw [hp]; rfl, by rw [hp]; decide⟩
  · intro id kv env h hmiss
    have hp : pdfGet env id kv = .notFound := by simp [pdfGet, h, hmiss]
    exact ⟨hp, by rw [hp]; rfl, by simp [successPage, h, hmiss]⟩

/-- Witness for the amended C10: the malformed identifier `abc`, and a
well-formed identifier absent from an empty store. -/
theorem c10_malformed_identifier_witness :
    isValidUUID "abc" = false ∧
    (successPage "abc" kv0 = .notFoundPage ∧
     pdfGet env0 "abc" kv0 = .invalidFormat ∧
     pdfStatus (pdfGet env0 "abc" kv0) = 400 ∧
     pdfGet env0 "abc" kv0 ≠ .notFound) ∧
    (pdfGet env0 wUuid kv0 = .notFound ∧
     pdfStatus (pdfGet env0 wUuid kv0) = 404 ∧
     successPage wUuid kv0 = .notFoundPage) :=
  ⟨by decide, c10_malformed_identifier.1 "abc" kv0 env0 (by decide),
   c10_malformed_identifier.2 wUuid kv0 env0 (by decide) rfl⟩

end GuestReg


